import Mathlib

set_option maxHeartbeats 1000000

/-!
Shallow embedding of `src/grid_map/grid_map.cpp` from `vigir_terrain_classifier`.

World coordinates (C++ `double`) are modelled as exact rationals `ℚ`;
the grid dimensions (C++ `unsigned int`) as `ℕ`; linear indices and grid
coordinates (C++ `int`) as `ℤ`, with the implicit conversions between
`int` and `unsigned int` in mixed expressions made explicit (`toUInt32`,
`toInt32`).  Cell values (C++ `int8_t`) are carried as `ℤ`; the code only
ever moves them around, so their 8-bit range plays no role.
-/

namespace VigirTerrain

/-- Sentinel byte value for unknown cells: `std::numeric_limits<int8_t>::min()`. -/
def int8Min : ℤ := -128

/-- Exact value of `std::numeric_limits<double>::max()` as a rational. -/
def dblMax : ℚ := 2 ^ 1024 - 2 ^ 971

/-- Exact value of `std::numeric_limits<double>::min()` as a rational: the smallest
positive normalized double, a tiny positive number (not the most negative double). -/
def dblMinPos : ℚ := 1 / 2 ^ 1022

/-- Modelled from the spec: the rounding helper `pceil(value, step)` (declared in the
external `vigir_footstep_planning` math utilities, whose definition is not part of
this repository) rounds `value` up to the nearest multiple of `step`. -/
def pceil (v s : ℚ) : ℚ := ⌈v / s⌉ * s

/-- Modelled from the spec: the rounding helper `pfloor(value, step)` rounds `value`
down to the nearest multiple of `step`. -/
def pfloor (v s : ℚ) : ℚ := ⌊v / s⌋ * s

/-- C `round`: round to nearest, halves away from zero, as used by
`getGridMapCoords(map, x, y, ...)`. -/
def cround (v : ℚ) : ℤ := if 0 ≤ v then ⌊v + 1 / 2⌋ else ⌈v - 1 / 2⌉

/-- Conversion of a mathematical integer to C `unsigned int`: reduction mod `2^32`. -/
def toUInt32 (i : ℤ) : ℕ := (i % (4294967296 : ℤ)).toNat

/-- Conversion of a natural number to C `int`: reduction mod `2^32`, values of
`2^31` and above wrapping to negatives (gcc behaviour for the narrowing store). -/
def toInt32 (n : ℕ) : ℤ :=
  if n % 4294967296 < 2147483648 then ((n % 4294967296 : ℕ) : ℤ)
  else ((n % 4294967296 : ℕ) : ℤ) - 4294967296

/-- The geometry part of `nav_msgs::OccupancyGrid::info`. -/
structure MapInfo where
  resolution : ℚ
  width : ℕ
  height : ℕ
  originX : ℚ
  originY : ℚ
  originZ : ℚ
deriving DecidableEq

/-- A `nav_msgs::OccupancyGrid` message: geometry plus the flat cell buffer. -/
structure OccupancyGrid where
  info : MapInfo
  data : List ℤ
deriving DecidableEq

/-- A `geometry_msgs::Vector3` (all components `double`). -/
structure Vector3 where
  x : ℚ
  y : ℚ
  z : ℚ
deriving DecidableEq

/-- The state owned by a `GridMap` object: the grid message, the tracked world-space
bounds `min`/`max`, and the `min_expansion_size` policy value. -/
structure GridMapState where
  grid : OccupancyGrid
  min : Vector3
  max : Vector3
  min_expansion_size : ℚ
deriving DecidableEq

/-- A default-constructed `nav_msgs::OccupancyGrid` (all fields zero, empty data). -/
def emptyMsg : OccupancyGrid := ⟨⟨0, 0, 0, 0, 0, 0⟩, []⟩

/-- `GridMap::clear()`: empty the data buffer and reset the tracked bounds to the
sentinels `std::numeric_limits<double>::max()` / `std::numeric_limits<double>::min()`.
Width and height of the grid message are left untouched. -/
def clear (st : GridMapState) : GridMapState :=
  { st with
      grid := { st.grid with data := [] }
      min := ⟨dblMax, dblMax, dblMax⟩
      max := ⟨dblMinPos, dblMinPos, dblMinPos⟩ }

/-- The constructor `GridMap(frame_id, resolution, min_expansion_size)`: fresh zeroed
grid message with the given resolution, `min_expansion_size` rounded up to a multiple
of `resolution`, then `clear()`. -/
def GridMapCreate (resolution mes : ℚ) : GridMapState :=
  clear
    { grid := ⟨⟨resolution, 0, 0, 0, 0, 0⟩, []⟩
      min := ⟨0, 0, 0⟩
      max := ⟨0, 0, 0⟩
      min_expansion_size := pceil mes resolution }

/-- `GridMap::fromMsg(map)`: copy the message wholesale and seed `min` from the
message origin (`max` is not touched). -/
def fromMsg (st : GridMapState) (map : OccupancyGrid) : GridMapState :=
  { st with grid := map, min := ⟨map.info.originX, map.info.originY, map.info.originZ⟩ }

/-- The constructor `GridMap(map, min_expansion_size)`: it rounds
`min_expansion_size` with the resolution of the freshly default-constructed grid
message (which is `0`, not the resolution of `map` — the read happens before
`fromMsg`), then calls `clear()` and `fromMsg(map)`. -/
def GridMapFromMsg (map : OccupancyGrid) (mes : ℚ) : GridMapState :=
  fromMsg
    (clear
      { grid := emptyMsg
        min := ⟨0, 0, 0⟩
        max := ⟨0, 0, 0⟩
        min_expansion_size := pceil mes emptyMsg.info.resolution })
    map

/-- `GridMap::getGridMapCoords(map, x, y, map_x, map_y)`: world → grid coordinates by
round-to-nearest; fails (returns `false`) when the rounded coordinates fall outside
`[0, width) × [0, height)`. -/
def getGridMapCoords (map : OccupancyGrid) (x y : ℚ) : Option (ℤ × ℤ) :=
  let mx := cround ((x - map.info.originX) / map.info.resolution)
  let my := cround ((y - map.info.originY) / map.info.resolution)
  if mx < 0 ∨ (map.info.width : ℤ) ≤ mx ∨ my < 0 ∨ (map.info.height : ℤ) ≤ my then
    none
  else
    some (mx, my)

/-- `GridMap::getGridMapCoords(map, idx, map_x, map_y)`: linear index → grid
coordinates.  In the C++ source `idx` (an `int`) is implicitly converted to
`unsigned int` by the mixed `idx % map.info.width` expression, the quotient and
remainder are stored back into `int`s, and only then are the derived coordinates
range-checked (`idx` itself is never range-checked). -/
def getGridMapCoordsOfIndex (map : OccupancyGrid) (idx : ℤ) : Option (ℤ × ℤ) :=
  let u := toUInt32 idx
  let mx := toInt32 (u % map.info.width)
  let my := toInt32 (u / map.info.width)
  if mx < 0 ∨ (map.info.width : ℤ) ≤ (toUInt32 mx : ℤ) ∨
      my < 0 ∨ (map.info.height : ℤ) ≤ (toUInt32 my : ℤ) then
    none
  else
    some (mx, my)

/-- `GridMap::getGridMapIndex(map, map_x, map_y, idx)`: grid coordinates → linear
index `map_x + map_y * width`, computed in `unsigned int` arithmetic and narrowed
back to `int`; fails when the coordinates are outside the grid. -/
def getGridMapIndex (map : OccupancyGrid) (mx my : ℤ) : Option ℤ :=
  if mx < 0 ∨ (map.info.width : ℤ) ≤ (toUInt32 mx : ℤ) ∨
      my < 0 ∨ (map.info.height : ℤ) ≤ (toUInt32 my : ℤ) then
    none
  else
    some (toInt32 (toUInt32 (mx + my * (map.info.width : ℤ))))

/-- `GridMap::getGridMapIndex(map, x, y, idx)`: world coordinates → linear index,
the composition of the two conversions above. -/
def getGridMapIndexOfWorld (map : OccupancyGrid) (x y : ℚ) : Option ℤ :=
  match getGridMapCoords map x y with
  | none => none
  | some (mx, my) => getGridMapIndex map mx my

/-- `GridMap::getGridMapWorldCoords(map, map_x, map_y, x, y)`: grid → world
coordinates; always succeeds. -/
def getGridMapWorldCoords (map : OccupancyGrid) (mx my : ℤ) : ℚ × ℚ :=
  ((mx : ℚ) * map.info.resolution + map.info.originX,
   (my : ℚ) * map.info.resolution + map.info.originY)

/-- The no-op test at the top of `GridMap::resize(min, max)`: the requested box is
already covered by the current bounds on x and y. -/
def covered (st : GridMapState) (rmin rmax : Vector3) : Prop :=
  st.min.x ≤ rmin.x ∧ st.min.y ≤ rmin.y ∧ rmax.x ≤ st.max.x ∧ rmax.y ≤ st.max.y

instance coveredDecidable (st : GridMapState) (rmin rmax : Vector3) :
    Decidable (covered st rmin rmax) := by
  unfold covered
  exact inferInstance

/-- The four new bounds computed by `GridMap::resize` (lines 113-132). -/
structure ResBounds where
  minX : ℚ
  minY : ℚ
  maxX : ℚ
  maxY : ℚ
deriving DecidableEq

/-- New bounds of `GridMap::resize(min, max)`: exact-fit snapping when the buffer is
empty, otherwise per-edge growth by `max(pceil(deficit, res), min_expansion_size)`
for each edge that must grow. -/
def resizeBounds (st : GridMapState) (rmin rmax : Vector3) : ResBounds :=
  let res := st.grid.info.resolution
  if st.grid.data = [] then
    ⟨pfloor rmin.x res, pfloor rmin.y res, pceil rmax.x res, pceil rmax.y res⟩
  else
    ⟨if rmin.x < st.min.x then
        st.min.x - max (pceil (st.min.x - rmin.x) res) st.min_expansion_size
      else st.min.x,
      if rmin.y < st.min.y then
        st.min.y - max (pceil (st.min.y - rmin.y) res) st.min_expansion_size
      else st.min.y,
      if st.max.x < rmax.x then
        st.max.x + max (pceil (rmax.x - st.max.x) res) st.min_expansion_size
      else st.max.x,
      if st.max.y < rmax.y then
        st.max.y + max (pceil (rmax.y - st.max.y) res) st.min_expansion_size
      else st.max.y⟩

/-- The geometry of the freshly allocated grid in `GridMap::resize` (lines 144-150):
`width = ceil((max.x - min.x)/res) + 1`, same for height; origin is the new minimum
(z carried over from the old origin). -/
def resizedInfo (st : GridMapState) (rmin rmax : Vector3) : MapInfo :=
  let res := st.grid.info.resolution
  let b := resizeBounds st rmin rmax
  { resolution := res
    width := (⌈(b.maxX - b.minX) / res⌉).toNat + 1
    height := (⌈(b.maxY - b.minY) / res⌉).toNat + 1
    originX := b.minX
    originY := b.minY
    originZ := st.grid.info.originZ }

/-- One `memcpy` of a row in the copy loop of `GridMap::resize`: copy `n` cells of
`src` starting at `srcStart` into `dst` starting at `dstStart`.  Out-of-range reads
(undefined behaviour in the C++) read the default `0`. -/
def copyRow (dst src : List ℤ) (dstStart srcStart : ℕ) : ℕ → List ℤ
  | 0 => dst
  | n + 1 => (copyRow dst src dstStart srcStart n).set (dstStart + n) (src.getD (srcStart + n) 0)

/-- The row-wise copy loop of `GridMap::resize` (lines 160-166): for each of the
given number of rows, copy `oldW` cells, advancing the source by `oldW` and the
destination by `newW` per row. -/
def copyRows (dst src : List ℤ) (oldW newW startIdx : ℕ) : ℕ → List ℤ
  | 0 => dst
  | r + 1 => copyRow (copyRows dst src oldW newW startIdx r) src (startIdx + r * newW) (r * oldW) oldW

/-- `GridMap::resize(min, max)` (lines 107-167): no-op when the request is covered;
otherwise compute the new bounds, allocate a buffer of the new size filled with the
unknown sentinel, locate the old origin in the new geometry (ignoring failure, in
which case the destination index stays 0), and copy the old data row by row.
The allocation size `info.width * info.height` at line 153 is a product of two
`unsigned int`s, so it is reduced mod `2^32` before being widened to `size_t`. -/
def resize (st : GridMapState) (rmin rmax : Vector3) : GridMapState :=
  if covered st rmin rmax then st
  else
    let b := resizeBounds st rmin rmax
    let info := resizedInfo st rmin rmax
    let fresh : OccupancyGrid :=
      ⟨info, List.replicate (info.width * info.height % 4294967296) int8Min⟩
    let newIdx : ℤ := (getGridMapIndexOfWorld fresh st.grid.info.originX st.grid.info.originY).getD 0
    let data := copyRows fresh.data st.grid.data st.grid.info.width info.width newIdx.toNat
      st.grid.info.height
    { grid := ⟨info, data⟩
      min := ⟨b.minX, b.minY, st.min.z⟩
      max := ⟨b.maxX, b.maxY, st.max.z⟩
      min_expansion_size := st.min_expansion_size }

/-- The spec's §3 buffer invariant: `width·height == cells.length`. -/
def dimsInvariant (st : GridMapState) : Prop :=
  st.grid.data.length = st.grid.info.width * st.grid.info.height

instance dimsInvariantDecidable (st : GridMapState) : Decidable (dimsInvariant st) := by
  unfold dimsInvariant
  exact inferInstance

/-- Well-formedness of a non-empty grid as (re)established by every reallocating
`resize`: positive resolution, origin at the tracked minimum, dimensions derived
from the bounds by the `ceil + 1` rule, a buffer of matching length, and a
`min_expansion_size` that is a multiple of the resolution (as the constructors
arrange via `pceil`). -/
def WF (st : GridMapState) : Prop :=
  0 < st.grid.info.resolution ∧
  st.grid.info.originX = st.min.x ∧
  st.grid.info.originY = st.min.y ∧
  st.min.x ≤ st.max.x ∧
  st.min.y ≤ st.max.y ∧
  st.grid.info.width = (⌈(st.max.x - st.min.x) / st.grid.info.resolution⌉).toNat + 1 ∧
  st.grid.info.height = (⌈(st.max.y - st.min.y) / st.grid.info.resolution⌉).toNat + 1 ∧
  st.grid.data.length = st.grid.info.width * st.grid.info.height ∧
  pceil st.min_expansion_size st.grid.info.resolution = st.min_expansion_size

instance wfDecidable (st : GridMapState) : Decidable (WF st) := by
  unfold WF
  exact inferInstance

/-! Concrete fixtures used to instantiate the theorems below. -/

/-- A well-formed grid covering `[0,1] × [0,1]` at resolution `0.1` with
`min_expansion_size = 0.2`, as in the spec's growth scenario. -/
def gridW : GridMapState :=
  { grid := ⟨⟨1 / 10, 11, 11, 0, 0, 0⟩, List.replicate 121 0⟩
    min := ⟨0, 0, 0⟩
    max := ⟨1, 1, 0⟩
    min_expansion_size := 1 / 5 }

/-- A tiny well-formed one-cell grid holding the value `7`. -/
def gridOne : GridMapState :=
  { grid := ⟨⟨1, 1, 1, 0, 0, 0⟩, [7]⟩
    min := ⟨0, 0, 0⟩
    max := ⟨0, 0, 0⟩
    min_expansion_size := 0 }

/-- A concrete 3 × 2 grid message used for the coordinate-conversion claims. -/
def mapW : OccupancyGrid := ⟨⟨1, 3, 2, 0, 0, 0⟩, List.replicate 6 0⟩

/-- An occupancy-grid message with resolution 1, origin `(-1, -1, 0)` and an empty
data buffer. -/
def msgC4 : OccupancyGrid := ⟨⟨1, 0, 0, -1, -1, 0⟩, []⟩

/-- An occupancy-grid message with resolution `0.05` carrying one cell. -/
def msgC5 : OccupancyGrid := ⟨⟨1 / 20, 1, 1, 0, 0, 0⟩, [3]⟩

/-- A 10 × 10 occupancy-grid message at resolution `0.1` with origin `(5, 5, 0)`;
its cell `(0, 0)` (world point `(5, 5)`) holds the value `7`. -/
def msgL : OccupancyGrid := ⟨⟨1 / 10, 10, 10, 5, 5, 0⟩, 7 :: List.replicate 99 0⟩

/-- A grid map loaded from `msgL` via the message constructor: `min` is seeded from
the message origin, but `max` keeps the tiny positive sentinel from `clear()`. -/
def loadedGrid : GridMapState := GridMapFromMsg msgL (1 / 10)

/-- The request box `(-10, -10) .. (-5, -5)` used against `loadedGrid`. -/
def reqMin : Vector3 := ⟨-10, -10, 0⟩

/-- Upper corner of the request box used against `loadedGrid`. -/
def reqMax : Vector3 := ⟨-5, -5, 0⟩

/-! Basic facts about the rounding helpers and the integer conversions. -/

lemma cround_intCast (k : ℤ) : cround (k : ℚ) = k := by
  unfold cround
  rcases le_or_lt 0 (k : ℚ) with h | h
  · rw [if_pos h, Int.floor_int_add]
    norm_num
  · rw [if_neg (not_le.mpr h), show (k : ℚ) - 1 / 2 = (-1 / 2 : ℚ) + (k : ℤ) by ring,
      Int.ceil_add_int]
    norm_num

lemma cround_natCast (n : ℕ) : cround (n : ℚ) = (n : ℤ) := by
  have : ((n : ℚ)) = (((n : ℤ) : ℚ)) := by push_cast; ring
  rw [this, cround_intCast]

lemma le_pceil (v s : ℚ) (hs : 0 < s) : v ≤ pceil v s := by
  unfold pceil
  calc v = v / s * s := by field_simp
    _ ≤ ⌈v / s⌉ * s := mul_le_mul_of_nonneg_right (Int.le_ceil _) hs.le

lemma pfloor_le (v s : ℚ) (hs : 0 < s) : pfloor v s ≤ v := by
  unfold pfloor
  calc (⌊v / s⌋ : ℚ) * s ≤ v / s * s := mul_le_mul_of_nonneg_right (Int.floor_le _) hs.le
    _ = v := by field_simp

lemma pceil_lt (v s : ℚ) (hs : 0 < s) : pceil v s < v + s := by
  unfold pceil
  calc (⌈v / s⌉ : ℚ) * s < (v / s + 1) * s :=
      mul_lt_mul_of_pos_right (Int.ceil_lt_add_one _) hs
    _ = v + s := by field_simp

lemma pfloor_gt (v s : ℚ) (hs : 0 < s) : v - s < pfloor v s := by
  unfold pfloor
  calc v - s = (v / s - 1) * s := by field_simp
    _ < (⌊v / s⌋ : ℚ) * s := mul_lt_mul_of_pos_right (Int.sub_one_lt_floor _) hs

lemma toUInt32_natCast (n : ℕ) (h : n < 4294967296) : toUInt32 (n : ℤ) = n := by
  unfold toUInt32
  omega

lemma toInt32_small (n : ℕ) (h : n < 2147483648) : toInt32 n = (n : ℤ) := by
  unfold toInt32
  rw [if_pos (by omega), Nat.mod_eq_of_lt (by omega)]

/-! Elementwise description of `List.set` reads via `getD`. -/

lemma getD_set_self (l : List ℤ) (i : ℕ) (v : ℤ) (h : i < l.length) :
    (l.set i v).getD i 0 = v := by
  induction l generalizing i with
  | nil => simp at h
  | cons a t ih =>
    cases i with
    | zero => rfl
    | succ i =>
      simp only [List.set_cons_succ, List.getD_cons_succ]
      exact ih i (by simpa using h)

lemma getD_set_ne (l : List ℤ) (i j : ℕ) (v : ℤ) (h : i ≠ j) :
    (l.set i v).getD j 0 = l.getD j 0 := by
  induction l generalizing i j with
  | nil => rfl
  | cons a t ih =>
    cases i with
    | zero =>
      cases j with
      | zero => omega
      | succ j => rfl
    | succ i =>
      cases j with
      | zero => rfl
      | succ j =>
        simp only [List.set_cons_succ, List.getD_cons_succ]
        exact ih i j (by omega)

/-! Behaviour of the row-copy loop. -/

lemma copyRow_length (dst src : List ℤ) (ds ss n : ℕ) :
    (copyRow dst src ds ss n).length = dst.length := by
  induction n with
  | zero => rfl
  | succ n ih => simp [copyRow, List.length_set, ih]

lemma copyRow_getD_out (dst src : List ℤ) (ds ss n j : ℕ) (h : j < ds ∨ ds + n ≤ j) :
    (copyRow dst src ds ss n).getD j 0 = dst.getD j 0 := by
  induction n with
  | zero => rfl
  | succ n ih =>
    rw [copyRow, getD_set_ne _ _ _ _ (by omega), ih (by omega)]

lemma copyRow_getD_in (dst src : List ℤ) (ds ss n c : ℕ) (hc : c < n)
    (hlen : ds + c < dst.length) :
    (copyRow dst src ds ss n).getD (ds + c) 0 = src.getD (ss + c) 0 := by
  induction n with
  | zero => omega
  | succ n ih =>
    rcases Nat.lt_succ_iff_lt_or_eq.mp hc with h | h
    · rw [copyRow, getD_set_ne _ _ _ _ (by omega), ih h]
    · subst h
      rw [copyRow, getD_set_self]
      rw [copyRow_length]
      exact hlen

lemma copyRows_length (dst src : List ℤ) (ow nw s R : ℕ) :
    (copyRows dst src ow nw s R).length = dst.length := by
  induction R with
  | zero => rfl
  | succ R ih => simp [copyRows, copyRow_length, ih]

lemma copyRows_getD (dst src : List ℤ) (ow nw s R r c : ℕ)
    (hr : r < R) (hc : c < ow) (how : ow ≤ nw) (hlen : s + r * nw + c < dst.length) :
    (copyRows dst src ow nw s R).getD (s + r * nw + c) 0 = src.getD (r * ow + c) 0 := by
  induction R with
  | zero => omega
  | succ R ih =>
    rcases Nat.lt_succ_iff_lt_or_eq.mp hr with h | h
    · rw [copyRows]
      have hout : s + r * nw + c < s + R * nw ∨ (s + R * nw) + ow ≤ s + r * nw + c := by
        left
        have h1 : r * nw + c < (r + 1) * nw := by
          calc r * nw + c < r * nw + nw := by omega
            _ = (r + 1) * nw := by ring
        have h2 : (r + 1) * nw ≤ R * nw := Nat.mul_le_mul_right _ (by omega)
        omega
      rw [copyRow_getD_out _ _ _ _ _ _ hout, ih h]
    · subst h
      rw [copyRows, copyRow_getD_in _ _ _ _ _ c hc]
      rw [copyRows_length]
      exact hlen

lemma copyRows_zero_width (dst src : List ℤ) (nw s R : ℕ) :
    copyRows dst src 0 nw s R = dst := by
  induction R with
  | zero => rfl
  | succ R ih =>
    rw [copyRows, ih]
    rfl

lemma copyRows_area_zero (dst src : List ℤ) (ow nw s R : ℕ) (h : ow * R = 0) :
    copyRows dst src ow nw s R = dst := by
  rcases Nat.mul_eq_zero.mp h with h | h
  · subst h
    exact copyRows_zero_width dst src nw s R
  · subst h
    rfl

/-! Structural description of `resize` in its two branches. -/

lemma resize_of_covered (st : GridMapState) (rmin rmax : Vector3)
    (h : covered st rmin rmax) : resize st rmin rmax = st := by
  unfold resize
  rw [if_pos h]

lemma resize_of_not_covered (st : GridMapState) (rmin rmax : Vector3)
    (h : ¬ covered st rmin rmax) :
    resize st rmin rmax =
      { grid :=
          ⟨resizedInfo st rmin rmax,
            copyRows
              (List.replicate
                ((resizedInfo st rmin rmax).width * (resizedInfo st rmin rmax).height %
                  4294967296)
                int8Min)
              st.grid.data st.grid.info.width (resizedInfo st rmin rmax).width
              ((getGridMapIndexOfWorld
                  ⟨resizedInfo st rmin rmax,
                    List.replicate
                      ((resizedInfo st rmin rmax).width * (resizedInfo st rmin rmax).height %
                        4294967296)
                      int8Min⟩
                  st.grid.info.originX st.grid.info.originY).getD 0).toNat
              st.grid.info.height⟩
        min := ⟨(resizeBounds st rmin rmax).minX, (resizeBounds st rmin rmax).minY, st.min.z⟩
        max := ⟨(resizeBounds st rmin rmax).maxX, (resizeBounds st rmin rmax).maxY, st.max.z⟩
        min_expansion_size := st.min_expansion_size } := by
  unfold resize
  rw [if_neg h]

/-- New bounds always cover the requested box (the request is honoured):
both the exact-fit snap of the empty branch and the padded growth of the
non-empty branch move each edge at least to the requested value. -/
lemma lower_edge_le (cur req res mes : ℚ) (hres : 0 < res) :
    (if req < cur then cur - max (pceil (cur - req) res) mes else cur) ≤ req := by
  split_ifs with h
  · have h1 := le_pceil (cur - req) res hres
    have h2 := le_max_left (pceil (cur - req) res) mes
    linarith
  · linarith [not_lt.mp h]

lemma upper_edge_ge (cur req res mes : ℚ) (hres : 0 < res) :
    req ≤ (if cur < req then cur + max (pceil (req - cur) res) mes else cur) := by
  split_ifs with h
  · have h1 := le_pceil (req - cur) res hres
    have h2 := le_max_left (pceil (req - cur) res) mes
    linarith
  · linarith [not_lt.mp h]

lemma resizeBounds_covers (st : GridMapState) (rmin rmax : Vector3)
    (hres : 0 < st.grid.info.resolution) :
    (resizeBounds st rmin rmax).minX ≤ rmin.x ∧
    (resizeBounds st rmin rmax).minY ≤ rmin.y ∧
    rmax.x ≤ (resizeBounds st rmin rmax).maxX ∧
    rmax.y ≤ (resizeBounds st rmin rmax).maxY := by
  by_cases hemp : st.grid.data = []
  · simp only [resizeBounds, if_pos hemp]
    exact ⟨pfloor_le _ _ hres, pfloor_le _ _ hres, le_pceil _ _ hres, le_pceil _ _ hres⟩
  · simp only [resizeBounds, if_neg hemp]
    exact ⟨lower_edge_le _ _ _ _ hres, lower_edge_le _ _ _ _ hres,
      upper_edge_ge _ _ _ _ hres, upper_edge_ge _ _ _ _ hres⟩

/-- Bounding the dimensions of a first allocation: the snapped interval exceeds the
requested one by less than one resolution step per side, so the `ceil + 1` cell
count is bounded by the requested span in cells plus three. -/
lemma resized_dims_le_of_empty (st : GridMapState) (rmin rmax : Vector3)
    (hemp : st.grid.data = []) (hres : 0 < st.grid.info.resolution) (Nx Ny : ℕ)
    (hx : (rmax.x - rmin.x) / st.grid.info.resolution + 2 ≤ (Nx : ℚ))
    (hy : (rmax.y - rmin.y) / st.grid.info.resolution + 2 ≤ (Ny : ℚ)) :
    (resizedInfo st rmin rmax).width ≤ Nx + 1 ∧
    (resizedInfo st rmin rmax).height ≤ Ny + 1 := by
  have hbx : (pceil rmax.x st.grid.info.resolution - pfloor rmin.x st.grid.info.resolution) /
      st.grid.info.resolution ≤ (Nx : ℚ) := by
    have h1 := pceil_lt rmax.x st.grid.info.resolution hres
    have h2 := pfloor_gt rmin.x st.grid.info.resolution hres
    rw [div_le_iff₀ hres]
    have h3 : (rmax.x - rmin.x) ≤ ((Nx : ℚ) - 2) * st.grid.info.resolution := by
      have h4 : (rmax.x - rmin.x) / st.grid.info.resolution ≤ (Nx : ℚ) - 2 := by linarith
      have h5 := (div_le_iff₀ hres).mp h4
      linarith
    linarith
  have hby : (pceil rmax.y st.grid.info.resolution - pfloor rmin.y st.grid.info.resolution) /
      st.grid.info.resolution ≤ (Ny : ℚ) := by
    have h1 := pceil_lt rmax.y st.grid.info.resolution hres
    have h2 := pfloor_gt rmin.y st.grid.info.resolution hres
    rw [div_le_iff₀ hres]
    have h3 : (rmax.y - rmin.y) ≤ ((Ny : ℚ) - 2) * st.grid.info.resolution := by
      have h4 : (rmax.y - rmin.y) / st.grid.info.resolution ≤ (Ny : ℚ) - 2 := by linarith
      have h5 := (div_le_iff₀ hres).mp h4
      linarith
    linarith
  have hcx : ⌈(pceil rmax.x st.grid.info.resolution - pfloor rmin.x st.grid.info.resolution) /
      st.grid.info.resolution⌉ ≤ (Nx : ℤ) := Int.ceil_le.mpr (by exact_mod_cast hbx)
  have hcy : ⌈(pceil rmax.y st.grid.info.resolution - pfloor rmin.y st.grid.info.resolution) /
      st.grid.info.resolution⌉ ≤ (Ny : ℤ) := Int.ceil_le.mpr (by exact_mod_cast hby)
  simp only [resizedInfo, resizeBounds, if_pos hemp]
  constructor
  · omega
  · omega

/-! Concrete facts about the fixtures, shared by several witnesses. -/

lemma gridOne_WF : WF gridOne := by
  refine ⟨by norm_num [gridOne], rfl, rfl, le_refl _, le_refl _, ?_, ?_, rfl, ?_⟩
  · norm_num [gridOne]
  · norm_num [gridOne]
  · norm_num [gridOne, pceil]

lemma gridOne_req_not_covered : ¬ covered gridOne ⟨0, 0, 0⟩ ⟨1, 0, 0⟩ :=
  fun hcov => absurd hcov.2.2.1 (by norm_num [gridOne])

lemma gridOne_bounds : resizeBounds gridOne ⟨0, 0, 0⟩ ⟨1, 0, 0⟩ = ⟨0, 0, 1, 0⟩ := by
  have hne : gridOne.grid.data ≠ [] := by simp [gridOne]
  have h1 : pceil (1 : ℚ) 1 = 1 := by
    unfold pceil
    norm_num
  have h2 : max (1 : ℚ) 0 = 1 := max_eq_left (by norm_num)
  simp only [resizeBounds, if_neg hne]
  norm_num [gridOne, h1, h2]

lemma gridOne_size_ok :
    (resizedInfo gridOne ⟨0, 0, 0⟩ ⟨1, 0, 0⟩).width *
      (resizedInfo gridOne ⟨0, 0, 0⟩ ⟨1, 0, 0⟩).height ≤ 2147483648 := by
  have hw2 : (resizedInfo gridOne ⟨0, 0, 0⟩ ⟨1, 0, 0⟩).width = 2 := by
    simp only [resizedInfo, gridOne_bounds]
    norm_num [gridOne]
  have hh2 : (resizedInfo gridOne ⟨0, 0, 0⟩ ⟨1, 0, 0⟩).height = 1 := by
    simp only [resizedInfo, gridOne_bounds]
    norm_num [gridOne]
  rw [hw2, hh2]
  norm_num

/-- C6: `resize` is idempotent for already-covered bounds: when the requested box is
covered by the current bounds the call leaves the entire state unchanged, and hence
calling `resize` twice with the same box changes nothing after the first call. -/
theorem C6_resize_idempotent (st : GridMapState) (rmin rmax : Vector3) :
    (covered st rmin rmax → resize st rmin rmax = st) ∧
    (0 < st.grid.info.resolution →
      resize (resize st rmin rmax) rmin rmax = resize st rmin rmax) := by
  constructor
  · exact resize_of_covered st rmin rmax
  · intro hres
    by_cases h : covered st rmin rmax
    · rw [resize_of_covered st rmin rmax h]
      exact resize_of_covered st rmin rmax h
    · apply resize_of_covered
      rw [resize_of_not_covered st rmin rmax h]
      obtain ⟨h1, h2, h3, h4⟩ := resizeBounds_covers st rmin rmax hres
      exact ⟨h1, h2, h3, h4⟩

/-- Witness for C6 at a concrete grid: a covered request is a no-op, and a growing
request is absorbed by the first of two identical calls. -/
theorem C6_resize_idempotent_witness :
    resize gridW ⟨1 / 2, 1 / 2, 0⟩ ⟨3 / 4, 3 / 4, 0⟩ = gridW ∧
    resize (resize gridW ⟨0, 0, 0⟩ ⟨21 / 20, 1, 0⟩) ⟨0, 0, 0⟩ ⟨21 / 20, 1, 0⟩ =
      resize gridW ⟨0, 0, 0⟩ ⟨21 / 20, 1, 0⟩ :=
  ⟨(C6_resize_idempotent gridW ⟨1 / 2, 1 / 2, 0⟩ ⟨3 / 4, 3 / 4, 0⟩).1
      (by norm_num [covered, gridW]),
   (C6_resize_idempotent gridW ⟨0, 0, 0⟩ ⟨21 / 20, 1, 0⟩).2 (by norm_num [gridW])⟩

/-- C3: on a non-empty buffer, every edge that must grow moves outward by exactly
`max(pceil(deficit, resolution), min_expansion_size)`, and every edge that need not
grow is left unchanged. -/
theorem C3_growth_amounts (st : GridMapState) (rmin rmax : Vector3)
    (hne : st.grid.data ≠ []) (hnc : ¬ covered st rmin rmax) :
    ((rmin.x < st.min.x → (resize st rmin rmax).min.x =
        st.min.x - max (pceil (st.min.x - rmin.x) st.grid.info.resolution) st.min_expansion_size) ∧
      (st.min.x ≤ rmin.x → (resize st rmin rmax).min.x = st.min.x)) ∧
    ((rmin.y < st.min.y → (resize st rmin rmax).min.y =
        st.min.y - max (pceil (st.min.y - rmin.y) st.grid.info.resolution) st.min_expansion_size) ∧
      (st.min.y ≤ rmin.y → (resize st rmin rmax).min.y = st.min.y)) ∧
    ((st.max.x < rmax.x → (resize st rmin rmax).max.x =
        st.max.x + max (pceil (rmax.x - st.max.x) st.grid.info.resolution) st.min_expansion_size) ∧
      (rmax.x ≤ st.max.x → (resize st rmin rmax).max.x = st.max.x)) ∧
    ((st.max.y < rmax.y → (resize st rmin rmax).max.y =
        st.max.y + max (pceil (rmax.y - st.max.y) st.grid.info.resolution) st.min_expansion_size) ∧
      (rmax.y ≤ st.max.y → (resize st rmin rmax).max.y = st.max.y)) := by
  rw [resize_of_not_covered st rmin rmax hnc]
  simp only [resizeBounds, if_neg hne]
  refine ⟨⟨?_, ?_⟩, ⟨?_, ?_⟩, ⟨?_, ?_⟩, ⟨?_, ?_⟩⟩ <;> intro h
  · simp [if_pos h]
  · simp [if_neg (not_lt.mpr h)]
  · simp [if_pos h]
  · simp [if_neg (not_lt.mpr h)]
  · simp [if_pos h]
  · simp [if_neg (not_lt.mpr h)]
  · simp [if_pos h]
  · simp [if_neg (not_lt.mpr h)]

/-- Witness for C3: the spec scenario — grid covering `[0,1]×[0,1]` at resolution
`0.1` with `min_expansion_size = 0.2`, request `max.x = 1.05`: the 0.05 deficit is
dominated by the minimum expansion size, so the edge grows to `1.2`. -/
theorem C3_growth_amounts_witness :
    gridW.max.x < 21 / 20 ∧
    (resize gridW ⟨0, 0, 0⟩ ⟨21 / 20, 1, 0⟩).max.x =
      gridW.max.x +
        max (pceil (21 / 20 - gridW.max.x) gridW.grid.info.resolution) gridW.min_expansion_size ∧
    (resize gridW ⟨0, 0, 0⟩ ⟨21 / 20, 1, 0⟩).max.x = 6 / 5 := by
  have hlt : gridW.max.x < 21 / 20 := by norm_num [gridW]
  have hmain := (C3_growth_amounts gridW ⟨0, 0, 0⟩ ⟨21 / 20, 1, 0⟩ (by simp [gridW])
    (fun hcov => absurd hcov.2.2.1 (by norm_num [gridW]))).2.2.1.1 hlt
  refine ⟨hlt, hmain, ?_⟩
  have hmain2 : (resize gridW ⟨0, 0, 0⟩ ⟨21 / 20, 1, 0⟩).max.x =
      1 + max (pceil (21 / 20 - 1) (1 / 10)) (1 / 5) := hmain
  have hc : pceil ((21 : ℚ) / 20 - 1) (1 / 10) = 1 / 10 := by
    unfold pceil
    have h1 : ⌈((21 : ℚ) / 20 - 1) / (1 / 10)⌉ = 1 := by
      rw [Int.ceil_eq_iff]
      norm_num
    rw [h1]
    norm_num
  rw [hmain2, hc, max_eq_right (by norm_num : (1 : ℚ) / 10 ≤ 1 / 5)]
  norm_num

/-- C4: a reallocating `resize` on an empty buffer (with, as the §3 invariant forces
for an empty buffer, zero-area dimensions) whose new cell count stays below `2^32`
(no `uint32` wrap of the allocation size at line 153) snaps the requested box
outward to resolution multiples with no expansion padding, makes the snapped
minimum the new origin, sizes the buffer by the `ceil + 1` rule and fills every
cell with the unknown sentinel. -/
theorem C4_first_alloc (st : GridMapState) (rmin rmax : Vector3)
    (hemp : st.grid.data = []) (hdims : st.grid.info.width * st.grid.info.height = 0)
    (hnc : ¬ covered st rmin rmax)
    (harea : (resizedInfo st rmin rmax).width * (resizedInfo st rmin rmax).height <
      4294967296) :
    (resize st rmin rmax).min.x = pfloor rmin.x st.grid.info.resolution ∧
    (resize st rmin rmax).min.y = pfloor rmin.y st.grid.info.resolution ∧
    (resize st rmin rmax).max.x = pceil rmax.x st.grid.info.resolution ∧
    (resize st rmin rmax).max.y = pceil rmax.y st.grid.info.resolution ∧
    (resize st rmin rmax).grid.info.originX = pfloor rmin.x st.grid.info.resolution ∧
    (resize st rmin rmax).grid.info.originY = pfloor rmin.y st.grid.info.resolution ∧
    (resize st rmin rmax).grid.info.width =
      (⌈(pceil rmax.x st.grid.info.resolution - pfloor rmin.x st.grid.info.resolution) /
          st.grid.info.resolution⌉).toNat + 1 ∧
    (resize st rmin rmax).grid.info.height =
      (⌈(pceil rmax.y st.grid.info.resolution - pfloor rmin.y st.grid.info.resolution) /
          st.grid.info.resolution⌉).toNat + 1 ∧
    (resize st rmin rmax).grid.data =
      List.replicate
        ((resize st rmin rmax).grid.info.width * (resize st rmin rmax).grid.info.height)
        int8Min := by
  rw [resize_of_not_covered st rmin rmax hnc]
  dsimp only
  rw [copyRows_area_zero _ _ _ _ _ _ hdims, Nat.mod_eq_of_lt harea]
  simp only [resizedInfo, resizeBounds, if_pos hemp]
  exact ⟨trivial, trivial, trivial, trivial, trivial, trivial, trivial, trivial, trivial⟩

/-- Witness for C4: the spec scenario — fresh grid with resolution `0.05`,
`min_expansion_size = 0.1`, first resize to `min = (-0.03, -0.02)`,
`max = (0.07, 0.04)`; the origin snaps to `(-0.05, -0.05)`. -/
theorem C4_first_alloc_witness :
    (GridMapCreate (1 / 20) (1 / 10)).grid.data = [] ∧
    (resize (GridMapCreate (1 / 20) (1 / 10)) ⟨-3 / 100, -1 / 50, 0⟩ ⟨7 / 100, 1 / 25, 0⟩).min.x =
      pfloor (-3 / 100) (GridMapCreate (1 / 20) (1 / 10)).grid.info.resolution ∧
    pfloor (-3 / 100) (GridMapCreate (1 / 20) (1 / 10)).grid.info.resolution = -1 / 20 := by
  have hdim := resized_dims_le_of_empty (GridMapCreate (1 / 20) (1 / 10))
    ⟨-3 / 100, -1 / 50, 0⟩ ⟨7 / 100, 1 / 25, 0⟩ rfl (by norm_num [GridMapCreate, clear]) 4 4
    (by norm_num [GridMapCreate, clear]) (by norm_num [GridMapCreate, clear])
  have harea := lt_of_le_of_lt (Nat.mul_le_mul hdim.1 hdim.2)
    (show 5 * 5 < 4294967296 by norm_num)
  exact ⟨rfl,
    (C4_first_alloc (GridMapCreate (1 / 20) (1 / 10)) ⟨-3 / 100, -1 / 50, 0⟩ ⟨7 / 100, 1 / 25, 0⟩
      rfl rfl (fun hcov => absurd hcov.1 (by norm_num [GridMapCreate, clear, dblMax])) harea).1,
    by norm_num [GridMapCreate, clear, pfloor]⟩

/-- Counterexample to C4 as universally stated: a grid loaded from a message with
empty data and origin `(-1, -1, 0)` has `max` still at the tiny positive sentinel
`std::numeric_limits<double>::min()`, so the request `min = max = (0,0,0)` passes
the covering check (`0 ≤ 2^-1022`); `resize` returns without snapping the bounds or
allocating anything, although the buffer is empty. -/
theorem C4_first_alloc_cex :
    (GridMapFromMsg msgC4 (1 / 10)).grid.data = [] ∧
    resize (GridMapFromMsg msgC4 (1 / 10)) ⟨0, 0, 0⟩ ⟨0, 0, 0⟩ = GridMapFromMsg msgC4 (1 / 10) ∧
    (resize (GridMapFromMsg msgC4 (1 / 10)) ⟨0, 0, 0⟩ ⟨0, 0, 0⟩).min.x = -1 ∧
    pfloor 0 (GridMapFromMsg msgC4 (1 / 10)).grid.info.resolution = 0 ∧
    (resize (GridMapFromMsg msgC4 (1 / 10)) ⟨0, 0, 0⟩ ⟨0, 0, 0⟩).grid.data = [] := by
  have hcov : covered (GridMapFromMsg msgC4 (1 / 10)) ⟨0, 0, 0⟩ ⟨0, 0, 0⟩ := by
    refine ⟨?_, ?_, ?_, ?_⟩ <;>
      norm_num [GridMapFromMsg, fromMsg, clear, msgC4, emptyMsg, dblMinPos]
  have heq := resize_of_covered _ _ _ hcov
  refine ⟨rfl, heq, ?_, ?_, ?_⟩
  · rw [heq]
    rfl
  · norm_num [GridMapFromMsg, fromMsg, msgC4, pfloor]
  · rw [heq]
    rfl

/-- C2 (amended): the buffer invariant `width·height == cells.length` holds after
construction, after loading a message that itself satisfies it, and is preserved by
every `resize` whose new cell count stays below `2^32`; it fails both for `clear()`
on a grid with non-zero dimensions and for a resize whose `uint32` cell-count
product wraps — witnessed here by a first allocation of `131074 × 131074` cells,
where the copy loop runs zero iterations and the behaviour is fully defined. -/
theorem C2_dims_invariant :
    (∀ r m : ℚ, dimsInvariant (GridMapCreate r m)) ∧
    (∀ (st : GridMapState) (map : OccupancyGrid),
        map.data.length = map.info.width * map.info.height → dimsInvariant (fromMsg st map)) ∧
    (∀ (st : GridMapState) (rmin rmax : Vector3),
        (resizedInfo st rmin rmax).width * (resizedInfo st rmin rmax).height < 4294967296 →
        dimsInvariant st → dimsInvariant (resize st rmin rmax)) ∧
    ¬ dimsInvariant
        (resize (GridMapCreate (1 / 10) 0) ⟨0, 0, 0⟩ ⟨131073 / 10, 131073 / 10, 0⟩) := by
  refine ⟨fun r m => rfl, fun st map h => h, fun st rmin rmax hbound h => ?_, ?_⟩
  · by_cases hc : covered st rmin rmax
    · rw [resize_of_covered st rmin rmax hc]
      exact h
    · rw [resize_of_not_covered st rmin rmax hc]
      unfold dimsInvariant
      dsimp only
      rw [copyRows_length, List.length_replicate, Nat.mod_eq_of_lt hbound]
  · have hnc : ¬ covered (GridMapCreate (1 / 10) 0) ⟨0, 0, 0⟩ ⟨131073 / 10, 131073 / 10, 0⟩ :=
      fun hcov => absurd hcov.1 (by norm_num [GridMapCreate, clear, dblMax])
    have hbw : resizeBounds (GridMapCreate (1 / 10) 0) ⟨0, 0, 0⟩ ⟨131073 / 10, 131073 / 10, 0⟩ =
        ⟨0, 0, 131073 / 10, 131073 / 10⟩ := by
      have hpf : pfloor (0 : ℚ) (1 / 10) = 0 := by
        unfold pfloor
        norm_num
      have hpc : pceil ((131073 : ℚ) / 10) (1 / 10) = 131073 / 10 := by
        unfold pceil
        rw [show ((131073 : ℚ) / 10) / (1 / 10) = ((131073 : ℤ) : ℚ) by norm_num,
          Int.ceil_intCast]
        norm_num
      simp only [resizeBounds, if_pos rfl]
      norm_num [GridMapCreate, clear, hpf, hpc]
    have hww : (resizedInfo (GridMapCreate (1 / 10) 0) ⟨0, 0, 0⟩
        ⟨131073 / 10, 131073 / 10, 0⟩).width = 131074 := by
      simp only [resizedInfo, hbw]
      rw [show (GridMapCreate (1 / 10) 0).grid.info.resolution = (1 / 10 : ℚ) from rfl,
        show ((131073 : ℚ) / 10 - 0) / (1 / 10) = ((131073 : ℤ) : ℚ) by norm_num,
        Int.ceil_intCast]
      decide
    have hhh : (resizedInfo (GridMapCreate (1 / 10) 0) ⟨0, 0, 0⟩
        ⟨131073 / 10, 131073 / 10, 0⟩).height = 131074 := by
      simp only [resizedInfo, hbw]
      rw [show (GridMapCreate (1 / 10) 0).grid.info.resolution = (1 / 10 : ℚ) from rfl,
        show ((131073 : ℚ) / 10 - 0) / (1 / 10) = ((131073 : ℤ) : ℚ) by norm_num,
        Int.ceil_intCast]
      decide
    rw [resize_of_not_covered _ _ _ hnc]
    intro hinv
    unfold dimsInvariant at hinv
    dsimp only at hinv
    rw [copyRows_length, List.length_replicate, hww, hhh] at hinv
    omega

/-- Witness for C2: the invariant holds after a concrete load and a concrete
in-bounds grow. -/
theorem C2_dims_invariant_witness :
    dimsInvariant (fromMsg gridOne mapW) ∧
    dimsInvariant (resize gridOne ⟨0, 0, 0⟩ ⟨1, 0, 0⟩) :=
  ⟨C2_dims_invariant.2.1 gridOne mapW rfl,
   C2_dims_invariant.2.2.1 gridOne ⟨0, 0, 0⟩ ⟨1, 0, 0⟩
     (lt_of_le_of_lt gridOne_size_ok (by norm_num)) rfl⟩

/-- Counterexample to C2 as stated: `clear()` on a grid that has just been resized
to a 1×1 buffer empties the data but keeps `width = height = 1`, so
`width·height = 1 ≠ 0 = cells.length` immediately after the reset. -/
theorem C2_dims_invariant_cex :
    ¬ dimsInvariant (clear (resize (GridMapCreate 1 0) ⟨0, 0, 0⟩ ⟨0, 0, 0⟩)) := by
  have hnc : ¬ covered (GridMapCreate 1 0) ⟨0, 0, 0⟩ ⟨0, 0, 0⟩ :=
    fun hcov => absurd hcov.1 (by norm_num [GridMapCreate, clear, dblMax])
  rw [resize_of_not_covered _ _ _ hnc]
  intro hinv
  unfold dimsInvariant clear resizedInfo at hinv
  dsimp only at hinv
  simp only [List.length_nil] at hinv
  exact absurd hinv.symm (Nat.mul_ne_zero (Nat.succ_ne_zero _) (Nat.succ_ne_zero _))

/-- C7: for a non-empty geometry and any linear index `0 ≤ idx < width·height`
(representable as a C `int`), decoding the index to grid coordinates and re-encoding
yields the original index. -/
theorem C7_index_roundtrip (map : OccupancyGrid) (idx : ℤ)
    (hw : 0 < map.info.width) (h0 : 0 ≤ idx)
    (hlt : idx < (map.info.width : ℤ) * (map.info.height : ℤ)) (hint : idx < 2147483648) :
    (getGridMapCoordsOfIndex map idx).bind (fun p => getGridMapIndex map p.1 p.2) =
      some idx := by
  set w := map.info.width with hwdef
  set h := map.info.height with hhdef
  have hn0 : idx.toNat < 2147483648 := by omega
  set n := idx.toNat with hndef
  have hlt2 : n < w * h := by
    have hcast : ((w * h : ℕ) : ℤ) = (w : ℤ) * (h : ℤ) := by push_cast; ring
    omega
  have hun : toUInt32 idx = n := by
    unfold toUInt32
    omega
  have hmod31 : n % w < 2147483648 := lt_of_le_of_lt (Nat.mod_le n w) hn0
  have hdiv31 : n / w < 2147483648 := lt_of_le_of_lt (Nat.div_le_self n w) hn0
  have hmodlt : n % w < w := Nat.mod_lt _ hw
  have hdivlt : n / w < h := by
    rw [Nat.div_lt_iff_lt_mul hw]
    calc n < w * h := hlt2
      _ = h * w := Nat.mul_comm w h
  have hge1 : (0 : ℤ) ≤ ((n % w : ℕ) : ℤ) := Int.natCast_nonneg _
  have hge2 : (0 : ℤ) ≤ ((n / w : ℕ) : ℤ) := Int.natCast_nonneg _
  have hltc1 : ((n % w : ℕ) : ℤ) < (w : ℤ) := by exact_mod_cast hmodlt
  have hltc2 : ((n / w : ℕ) : ℤ) < (h : ℤ) := by exact_mod_cast hdivlt
  have hcoords : getGridMapCoordsOfIndex map idx =
      some (((n % w : ℕ) : ℤ), ((n / w : ℕ) : ℤ)) := by
    simp only [getGridMapCoordsOfIndex]
    rw [hun, toInt32_small _ hmod31, toInt32_small _ hdiv31,
      toUInt32_natCast _ (by omega), toUInt32_natCast _ (by omega), ← hwdef, ← hhdef,
      if_neg (by omega)]
  have hsumN : n % w + n / w * w = n := Nat.mod_add_div' n w
  have hindex : getGridMapIndex map ((n % w : ℕ) : ℤ) ((n / w : ℕ) : ℤ) = some idx := by
    unfold getGridMapIndex
    rw [toUInt32_natCast _ (by omega), toUInt32_natCast _ (by omega), ← hwdef, ← hhdef,
      if_neg (by omega)]
    have hsum : ((n % w : ℕ) : ℤ) + ((n / w : ℕ) : ℤ) * (w : ℤ) = ((n : ℕ) : ℤ) := by
      exact_mod_cast hsumN
    rw [hsum, toUInt32_natCast _ (by omega), toInt32_small _ hn0, hndef,
      Int.toNat_of_nonneg h0]
  rw [hcoords]
  exact hindex

/-- Witness for C7 at a concrete 3 × 2 grid and index 4. -/
theorem C7_index_roundtrip_witness :
    (getGridMapCoordsOfIndex mapW 4).bind (fun p => getGridMapIndex mapW p.1 p.2) =
      some 4 :=
  C7_index_roundtrip mapW 4 (by decide) (by decide) (by decide) (by decide)

/-- C9: decoding a linear index fails exactly when the derived coordinates
`(idx mod width, idx div width)` fall outside the grid — the index itself is never
range-checked — and in particular the one-past-the-end index `width·height` of a
non-empty grid always fails. -/
theorem C9_index_failure (map : OccupancyGrid) (hw : 0 < map.info.width) :
    (∀ idx : ℤ, 0 ≤ idx → idx < 2147483648 →
      (getGridMapCoordsOfIndex map idx = none ↔
        ¬ (idx / (map.info.width : ℤ) < (map.info.height : ℤ)))) ∧
    (0 < map.info.height → (map.info.width : ℤ) * (map.info.height : ℤ) < 2147483648 →
      getGridMapCoordsOfIndex map ((map.info.width : ℤ) * (map.info.height : ℤ)) = none) := by
  have main : ∀ idx : ℤ, 0 ≤ idx → idx < 2147483648 →
      (getGridMapCoordsOfIndex map idx = none ↔
        ¬ (idx / (map.info.width : ℤ) < (map.info.height : ℤ))) := by
    intro idx h0 hint
    set w := map.info.width with hwdef
    set h := map.info.height with hhdef
    have hn0 : idx.toNat < 2147483648 := by omega
    set n := idx.toNat with hndef
    have hun : toUInt32 idx = n := by
      unfold toUInt32
      omega
    have hmod31 : n % w < 2147483648 := lt_of_le_of_lt (Nat.mod_le n w) hn0
    have hdiv31 : n / w < 2147483648 := lt_of_le_of_lt (Nat.div_le_self n w) hn0
    have hmodlt : n % w < w := Nat.mod_lt _ hw
    have hge1 : (0 : ℤ) ≤ ((n % w : ℕ) : ℤ) := Int.natCast_nonneg _
    have hge2 : (0 : ℤ) ≤ ((n / w : ℕ) : ℤ) := Int.natCast_nonneg _
    have hltc1 : ((n % w : ℕ) : ℤ) < (w : ℤ) := by exact_mod_cast hmodlt
    have hdiv_eq : idx / (w : ℤ) = ((n / w : ℕ) : ℤ) := by
      rw [hndef, ← Int.toNat_of_nonneg h0]
      exact_mod_cast (Int.ofNat_ediv idx.toNat w).symm
    simp only [getGridMapCoordsOfIndex]
    rw [hun, toInt32_small _ hmod31, toInt32_small _ hdiv31,
      toUInt32_natCast _ (by omega), toUInt32_natCast _ (by omega), ← hwdef, ← hhdef,
      hdiv_eq]
    rcases le_or_lt (h : ℤ) ((n / w : ℕ) : ℤ) with hc | hc
    · rw [if_pos (Or.inr (Or.inr (Or.inr hc)))]
      constructor
      · intro _
        omega
      · intro _
        rfl
    · rw [if_neg (by omega)]
      constructor
      · intro hsome
        exact absurd hsome (by simp)
      · intro hcon
        exact absurd hc hcon
  refine ⟨main, fun hh hint => ?_⟩
  have h0 : (0 : ℤ) ≤ (map.info.width : ℤ) * (map.info.height : ℤ) := by positivity
  rw [main _ h0 hint]
  intro hlt
  rw [Int.mul_ediv_cancel_left _ (by exact_mod_cast hw.ne')] at hlt
  exact absurd hlt (lt_irrefl _)

/-- Witness for C9 at the concrete 3 × 2 grid: index 6 (one past the end) fails. -/
theorem C9_index_failure_witness :
    getGridMapCoordsOfIndex mapW ((mapW.info.width : ℤ) * (mapW.info.height : ℤ)) = none :=
  (C9_index_failure mapW (by decide)).2 (by decide) (by decide)

/-- C8: converting in-range grid coordinates to world coordinates and back is the
identity: the produced world point is an exact resolution multiple away from the
origin, so the rounding conversion recovers the coordinates exactly. -/
theorem C8_world_roundtrip (map : OccupancyGrid) (gx gy : ℤ)
    (hres : 0 < map.info.resolution)
    (hx0 : 0 ≤ gx) (hxw : gx < (map.info.width : ℤ))
    (hy0 : 0 ≤ gy) (hyh : gy < (map.info.height : ℤ)) :
    getGridMapCoords map (getGridMapWorldCoords map gx gy).1
      (getGridMapWorldCoords map gx gy).2 = some (gx, gy) := by
  have hx : ((gx : ℚ) * map.info.resolution + map.info.originX - map.info.originX) /
      map.info.resolution = (gx : ℚ) := by
    field_simp
  have hy : ((gy : ℚ) * map.info.resolution + map.info.originY - map.info.originY) /
      map.info.resolution = (gy : ℚ) := by
    field_simp
  simp only [getGridMapCoords, getGridMapWorldCoords]
  rw [hx, hy, cround_intCast, cround_intCast, if_neg (by omega)]

/-- Witness for C8 at the concrete 3 × 2 grid and cell (2, 1). -/
theorem C8_world_roundtrip_witness :
    getGridMapCoords mapW (getGridMapWorldCoords mapW 2 1).1
      (getGridMapWorldCoords mapW 2 1).2 = some (2, 1) :=
  C8_world_roundtrip mapW 2 1 (by norm_num [mapW]) (by decide) (by decide) (by decide)
    (by decide)

/-! Machinery for the data-preservation claim: the growth of each edge is a
non-negative multiple of the resolution, so the old origin sits on an exact cell
boundary of the new geometry. -/

lemma grow_amount_eq (d res mes : ℚ) (hres : 0 < res) (hd : 0 < d)
    (hmes : pceil mes res = mes) :
    ∃ n : ℕ, max (pceil d res) mes = (n : ℚ) * res ∧ 0 < n := by
  have hc1 : 1 ≤ ⌈d / res⌉ := Int.ceil_pos.mpr (div_pos hd hres)
  have hmes' : mes = ((⌈mes / res⌉ : ℤ) : ℚ) * res := by
    conv_lhs => rw [← hmes]
    rfl
  refine ⟨(max ⌈d / res⌉ ⌈mes / res⌉).toNat, ?_, by omega⟩
  have hmax : max ((⌈d / res⌉ : ℚ) * res) ((⌈mes / res⌉ : ℚ) * res) =
      ((max ⌈d / res⌉ ⌈mes / res⌉ : ℤ) : ℚ) * res := by
    rw [Int.cast_max]
    exact (max_mul_of_nonneg _ _ hres.le).symm
  have htn : (((max ⌈d / res⌉ ⌈mes / res⌉).toNat : ℕ) : ℚ) =
      ((max ⌈d / res⌉ ⌈mes / res⌉ : ℤ) : ℚ) := by
    have : ((max ⌈d / res⌉ ⌈mes / res⌉).toNat : ℤ) = max ⌈d / res⌉ ⌈mes / res⌉ :=
      Int.toNat_of_nonneg (by omega)
    exact_mod_cast this
  calc max (pceil d res) mes = max ((⌈d / res⌉ : ℚ) * res) ((⌈mes / res⌉ : ℚ) * res) := by
        rw [pceil, ← hmes']
    _ = ((max ⌈d / res⌉ ⌈mes / res⌉ : ℤ) : ℚ) * res := hmax
    _ = (((max ⌈d / res⌉ ⌈mes / res⌉).toNat : ℕ) : ℚ) * res := by rw [htn]

lemma lower_edge_sub (cur req res mes : ℚ) (hres : 0 < res) (hmes : pceil mes res = mes) :
    ∃ n : ℕ, (if req < cur then cur - max (pceil (cur - req) res) mes else cur) =
      cur - (n : ℚ) * res := by
  split_ifs with h
  · obtain ⟨n, hn, -⟩ := grow_amount_eq (cur - req) res mes hres (by linarith) hmes
    exact ⟨n, by rw [hn]⟩
  · exact ⟨0, by norm_num⟩

lemma upper_edge_add (cur req res mes : ℚ) (hres : 0 < res) (hmes : pceil mes res = mes) :
    ∃ n : ℕ, (if cur < req then cur + max (pceil (req - cur) res) mes else cur) =
      cur + (n : ℚ) * res := by
  split_ifs with h
  · obtain ⟨n, hn, -⟩ := grow_amount_eq (req - cur) res mes hres (by linarith) hmes
    exact ⟨n, by rw [hn]⟩
  · exact ⟨0, by norm_num⟩

/-- Growing the covered interval by `p` cells below and `q` cells above grows the
`ceil + 1` cell count by exactly `p + q`. -/
lemma width_shift (lo hi res : ℚ) (hres : 0 < res) (hle : lo ≤ hi) (p q : ℕ) :
    (⌈((hi + (q : ℚ) * res) - (lo - (p : ℚ) * res)) / res⌉).toNat + 1 =
      ((⌈(hi - lo) / res⌉).toNat + 1) + (p + q) := by
  have hne := hres.ne'
  have hdiv : ((hi + (q : ℚ) * res) - (lo - (p : ℚ) * res)) / res =
      (hi - lo) / res + (((p + q : ℕ) : ℤ) : ℚ) := by
    field_simp
    ring
  rw [hdiv, Int.ceil_add_int]
  have hnn : 0 ≤ ⌈(hi - lo) / res⌉ := Int.ceil_nonneg (div_nonneg (by linarith) hres.le)
  omega

/-- Looking up the world point `(a·res + ox, b·res + oy)` in a geometry whose origin
is `(ox - kl·res, oy - kb·res)` lands exactly on cell `(a + kl, b + kb)` and, when
that cell is inside an `int`-sized grid, yields its row-major index. -/
lemma lookup_shifted (g : OccupancyGrid) (res ox oy : ℚ) (hres : 0 < res)
    (kl kb : ℕ) (hgres : g.info.resolution = res)
    (hgox : g.info.originX = ox - (kl : ℚ) * res)
    (hgoy : g.info.originY = oy - (kb : ℚ) * res)
    (a b : ℕ) (ha : a + kl < g.info.width) (hb : b + kb < g.info.height)
    (hsz : g.info.width * g.info.height ≤ 2147483648) :
    getGridMapIndexOfWorld g ((a : ℚ) * res + ox) ((b : ℚ) * res + oy) =
      some (((a + kl) + (b + kb) * g.info.width : ℕ) : ℤ) := by
  have hne := hres.ne'
  have hx : ((a : ℚ) * res + ox - g.info.originX) / g.info.resolution =
      ((a + kl : ℕ) : ℚ) := by
    rw [hgox, hgres]
    push_cast
    field_simp
    ring
  have hy : ((b : ℚ) * res + oy - g.info.originY) / g.info.resolution =
      ((b + kb : ℕ) : ℚ) := by
    rw [hgoy, hgres]
    push_cast
    field_simp
    ring
  have hhpos : 0 < g.info.height := by omega
  have hwpos : 0 < g.info.width := by omega
  have hwh : g.info.width ≤ g.info.width * g.info.height :=
    Nat.le_mul_of_pos_right _ hhpos
  have hhw : g.info.height ≤ g.info.width * g.info.height := by
    calc g.info.height ≤ g.info.height * g.info.width := Nat.le_mul_of_pos_right _ hwpos
      _ = g.info.width * g.info.height := Nat.mul_comm _ _
  have hv : (a + kl) + (b + kb) * g.info.width < g.info.width * g.info.height := by
    calc (a + kl) + (b + kb) * g.info.width
        < g.info.width + (b + kb) * g.info.width := by omega
      _ = ((b + kb) + 1) * g.info.width := by ring
      _ ≤ g.info.height * g.info.width := Nat.mul_le_mul_right _ (by omega)
      _ = g.info.width * g.info.height := Nat.mul_comm _ _
  have hcoords : getGridMapCoords g ((a : ℚ) * res + ox) ((b : ℚ) * res + oy) =
      some (((a + kl : ℕ) : ℤ), ((b + kb : ℕ) : ℤ)) := by
    simp only [getGridMapCoords]
    rw [hx, hy, cround_natCast, cround_natCast, if_neg (by omega)]
  unfold getGridMapIndexOfWorld
  rw [hcoords]
  simp only [getGridMapIndex]
  rw [toUInt32_natCast _ (by omega), toUInt32_natCast _ (by omega), if_neg (by omega)]
  have hsum : ((a + kl : ℕ) : ℤ) + ((b + kb : ℕ) : ℤ) * (g.info.width : ℤ) =
      (((a + kl) + (b + kb) * g.info.width : ℕ) : ℤ) := by
    push_cast
    ring
  rw [hsum, toUInt32_natCast _ (by omega), toInt32_small _ (by omega)]

/-- Core lemma for the copy step of a reallocating `resize` on a well-formed grid:
the world point of old cell `(gx, gy)` resolves in the new geometry to the index
`(gx + kl) + (gy + kb)·new_width` (where `kl`, `kb` are the per-edge growths in
cells), that index is in range, and the copied buffer holds the old value there. -/
lemma resize_grow_data (st : GridMapState) (rmin rmax : Vector3)
    (hWF : WF st) (hnc : ¬ covered st rmin rmax)
    (hsize : (resizedInfo st rmin rmax).width * (resizedInfo st rmin rmax).height ≤
      2147483648)
    (gx gy : ℕ) (hgx : gx < st.grid.info.width) (hgy : gy < st.grid.info.height) :
    ∃ i : ℤ,
      getGridMapIndexOfWorld (resize st rmin rmax).grid
        ((gx : ℚ) * st.grid.info.resolution + st.grid.info.originX)
        ((gy : ℚ) * st.grid.info.resolution + st.grid.info.originY) = some i ∧
      0 ≤ i ∧ i.toNat < (resize st rmin rmax).grid.data.length ∧
      (resize st rmin rmax).grid.data.getD i.toNat 0 =
        st.grid.data.getD (gx + gy * st.grid.info.width) 0 := by
  obtain ⟨hres, hox, hoy, hxy, hyy, hwid, hhei, hlen, hmes⟩ := hWF
  have hne : st.grid.data ≠ [] := by
    intro hnil
    have h0 : st.grid.data.length = 0 := by rw [hnil]; rfl
    rw [hlen, hwid, hhei] at h0
    exact Nat.mul_ne_zero (Nat.succ_ne_zero _) (Nat.succ_ne_zero _) h0
  obtain ⟨kl, hkl⟩ := lower_edge_sub st.min.x rmin.x st.grid.info.resolution
    st.min_expansion_size hres hmes
  obtain ⟨kb, hkb⟩ := lower_edge_sub st.min.y rmin.y st.grid.info.resolution
    st.min_expansion_size hres hmes
  obtain ⟨kr, hkr⟩ := upper_edge_add st.max.x rmax.x st.grid.info.resolution
    st.min_expansion_size hres hmes
  obtain ⟨kt, hkt⟩ := upper_edge_add st.max.y rmax.y st.grid.info.resolution
    st.min_expansion_size hres hmes
  have hb : resizeBounds st rmin rmax =
      ⟨st.min.x - (kl : ℚ) * st.grid.info.resolution,
       st.min.y - (kb : ℚ) * st.grid.info.resolution,
       st.max.x + (kr : ℚ) * st.grid.info.resolution,
       st.max.y + (kt : ℚ) * st.grid.info.resolution⟩ := by
    simp only [resizeBounds, if_neg hne]
    rw [hkl, hkb, hkr, hkt]
  have hnw : (resizedInfo st rmin rmax).width = st.grid.info.width + (kl + kr) := by
    simp only [resizedInfo, hb]
    rw [width_shift st.min.x st.max.x st.grid.info.resolution hres hxy kl kr, ← hwid]
  have hnh : (resizedInfo st rmin rmax).height = st.grid.info.height + (kb + kt) := by
    simp only [resizedInfo, hb]
    rw [width_shift st.min.y st.max.y st.grid.info.resolution hres hyy kb kt, ← hhei]
  have hnres : (resizedInfo st rmin rmax).resolution = st.grid.info.resolution := by
    simp only [resizedInfo]
  have hnox : (resizedInfo st rmin rmax).originX =
      st.min.x - (kl : ℚ) * st.grid.info.resolution := by
    simp only [resizedInfo, hb]
  have hnoy : (resizedInfo st rmin rmax).originY =
      st.min.y - (kb : ℚ) * st.grid.info.resolution := by
    simp only [resizedInfo, hb]
  have hw1 : 1 ≤ st.grid.info.width := by
    rw [hwid]
    omega
  have hh1 : 1 ≤ st.grid.info.height := by
    rw [hhei]
    omega
  have hlook : ∀ (dat : List ℤ) (a b : ℕ), a + kl < (resizedInfo st rmin rmax).width →
      b + kb < (resizedInfo st rmin rmax).height →
      getGridMapIndexOfWorld ⟨resizedInfo st rmin rmax, dat⟩
        ((a : ℚ) * st.grid.info.resolution + st.min.x)
        ((b : ℚ) * st.grid.info.resolution + st.min.y) =
        some (((a + kl) + (b + kb) * (resizedInfo st rmin rmax).width : ℕ) : ℤ) :=
    fun dat a b ha hb =>
      lookup_shifted ⟨resizedInfo st rmin rmax, dat⟩ st.grid.info.resolution st.min.x
        st.min.y hres kl kb hnres hnox hnoy a b ha hb hsize
  have hbound_a : gx + kl < (resizedInfo st rmin rmax).width := by
    rw [hnw]
    omega
  have hbound_b : gy + kb < (resizedInfo st rmin rmax).height := by
    rw [hnh]
    omega
  have hbound_0a : 0 + kl < (resizedInfo st rmin rmax).width := by
    rw [hnw]
    omega
  have hbound_0b : 0 + kb < (resizedInfo st rmin rmax).height := by
    rw [hnh]
    omega
  have hox0 : st.grid.info.originX = ((0 : ℕ) : ℚ) * st.grid.info.resolution + st.min.x := by
    rw [hox]
    push_cast
    ring
  have hoy0 : st.grid.info.originY = ((0 : ℕ) : ℚ) * st.grid.info.resolution + st.min.y := by
    rw [hoy]
    push_cast
    ring
  have hstart : (getGridMapIndexOfWorld
      ⟨resizedInfo st rmin rmax,
        List.replicate ((resizedInfo st rmin rmax).width * (resizedInfo st rmin rmax).height)
          int8Min⟩
      st.grid.info.originX st.grid.info.originY).getD 0 =
      ((kl + kb * (resizedInfo st rmin rmax).width : ℕ) : ℤ) := by
    rw [hox0, hoy0, hlook _ 0 0 hbound_0a hbound_0b]
    norm_num
  have hv : (gx + kl) + (gy + kb) * (resizedInfo st rmin rmax).width <
      (resizedInfo st rmin rmax).width * (resizedInfo st rmin rmax).height := by
    calc (gx + kl) + (gy + kb) * (resizedInfo st rmin rmax).width
        < (resizedInfo st rmin rmax).width + (gy + kb) * (resizedInfo st rmin rmax).width := by
          omega
      _ = ((gy + kb) + 1) * (resizedInfo st rmin rmax).width := by ring
      _ ≤ (resizedInfo st rmin rmax).height * (resizedInfo st rmin rmax).width :=
          Nat.mul_le_mul_right _ (by omega)
      _ = (resizedInfo st rmin rmax).width * (resizedInfo st rmin rmax).height :=
          Nat.mul_comm _ _
  rw [resize_of_not_covered st rmin rmax hnc]
  dsimp only
  rw [Nat.mod_eq_of_lt (show (resizedInfo st rmin rmax).width *
    (resizedInfo st rmin rmax).height < 4294967296 by omega)]
  refine ⟨(((gx + kl) + (gy + kb) * (resizedInfo st rmin rmax).width : ℕ) : ℤ), ?_, ?_, ?_, ?_⟩
  · rw [hox, hoy]
    exact hlook _ gx gy hbound_a hbound_b
  · exact Int.natCast_nonneg _
  · rw [Int.toNat_natCast, copyRows_length, List.length_replicate]
    exact hv
  · rw [Int.toNat_natCast, hstart, Int.toNat_natCast]
    have hvdecomp : (gx + kl) + (gy + kb) * (resizedInfo st rmin rmax).width =
        (kl + kb * (resizedInfo st rmin rmax).width) + gy * (resizedInfo st rmin rmax).width
          + gx := by
      ring
    rw [hvdecomp, copyRows_getD _ _ _ _ _ _ gy gx hgy hgx (by rw [hnw]; omega)
      (by rw [List.length_replicate, ← hvdecomp]; exact hv)]
    rw [Nat.add_comm (gy * st.grid.info.width) gx]

/-- C1 (amended): after a reallocating `resize` of a well-formed grid — origin at
the tracked minimum, ordered bounds, dimensions derived from the bounds by the
`ceil + 1` rule, buffer length `width·height`, expansion size a resolution multiple,
exactly the shape a reallocating `resize` itself (re)establishes — with an
`int`-representable new buffer, every cell value stored in the old buffer is
readable at the same world coordinate in the new buffer: the world point of the old
cell `(gx, gy)` converts to a valid index of the new grid whose cell holds exactly
the old value.  (Message-loaded grids violate this well-formedness: their `max`
keeps the tiny positive sentinel, and data can be misplaced — see the
counterexample.) -/
theorem C1_resize_preserves_data (st : GridMapState) (rmin rmax : Vector3)
    (hWF : WF st) (hnc : ¬ covered st rmin rmax)
    (hsize : (resizedInfo st rmin rmax).width * (resizedInfo st rmin rmax).height ≤
      2147483648)
    (gx gy : ℕ) (hgx : gx < st.grid.info.width) (hgy : gy < st.grid.info.height) :
    ∃ i : ℤ,
      getGridMapIndexOfWorld (resize st rmin rmax).grid
        (getGridMapWorldCoords st.grid (gx : ℤ) (gy : ℤ)).1
        (getGridMapWorldCoords st.grid (gx : ℤ) (gy : ℤ)).2 = some i ∧
      0 ≤ i ∧ i.toNat < (resize st rmin rmax).grid.data.length ∧
      (resize st rmin rmax).grid.data.getD i.toNat 0 =
        st.grid.data.getD (gx + gy * st.grid.info.width) 0 := by
  have h1 : (getGridMapWorldCoords st.grid ((gx : ℕ) : ℤ) ((gy : ℕ) : ℤ)).1 =
      (gx : ℚ) * st.grid.info.resolution + st.grid.info.originX := by
    simp [getGridMapWorldCoords]
  have h2 : (getGridMapWorldCoords st.grid ((gx : ℕ) : ℤ) ((gy : ℕ) : ℤ)).2 =
      (gy : ℚ) * st.grid.info.resolution + st.grid.info.originY := by
    simp [getGridMapWorldCoords]
  rw [h1, h2]
  exact resize_grow_data st rmin rmax hWF hnc hsize gx gy hgx hgy

/-- Witness for C1: grow the one-cell grid holding `7` one cell to the right; the
value `7` is still found at world coordinate `(0, 0)`. -/
theorem C1_resize_preserves_data_witness :
    ∃ i : ℤ,
      getGridMapIndexOfWorld (resize gridOne ⟨0, 0, 0⟩ ⟨1, 0, 0⟩).grid
        (getGridMapWorldCoords gridOne.grid ((0 : ℕ) : ℤ) ((0 : ℕ) : ℤ)).1
        (getGridMapWorldCoords gridOne.grid ((0 : ℕ) : ℤ) ((0 : ℕ) : ℤ)).2 = some i ∧
      0 ≤ i ∧ i.toNat < (resize gridOne ⟨0, 0, 0⟩ ⟨1, 0, 0⟩).grid.data.length ∧
      (resize gridOne ⟨0, 0, 0⟩ ⟨1, 0, 0⟩).grid.data.getD i.toNat 0 =
        gridOne.grid.data.getD (0 + 0 * gridOne.grid.info.width) 0 :=
  C1_resize_preserves_data gridOne ⟨0, 0, 0⟩ ⟨1, 0, 0⟩ gridOne_WF gridOne_req_not_covered
    gridOne_size_ok 0 0 (by norm_num [gridOne]) (by norm_num [gridOne])

/-! Evaluation of the message-loaded fixture.  The request box lies entirely below
the old origin, so the resize reallocates; but because `max` still holds the tiny
positive sentinel `std::numeric_limits<double>::min()`, the new upper bound stays at
the sentinel and the new geometry (width 102 from `-10` up to the sentinel)
excludes the old data block around `(5, 5)`. -/

lemma loadedGrid_ne : loadedGrid.grid.data ≠ [] := by
  simp [loadedGrid, GridMapFromMsg, fromMsg, msgL]

lemma loadedGrid_not_covered : ¬ covered loadedGrid reqMin reqMax :=
  fun h => absurd h.1 (by norm_num [loadedGrid, GridMapFromMsg, fromMsg, clear, msgL, reqMin])

lemma loadedGrid_res : loadedGrid.grid.info.resolution = 1 / 10 := rfl

lemma loadedGrid_bounds :
    resizeBounds loadedGrid reqMin reqMax = ⟨-10, -10, dblMinPos, dblMinPos⟩ := by
  have hp15 : pceil (15 : ℚ) (1 / 10) = 15 := by
    unfold pceil
    rw [show ((15 : ℚ) / (1 / 10)) = ((150 : ℤ) : ℚ) by norm_num, Int.ceil_intCast]
    norm_num
  have hmes0 : pceil ((1 : ℚ) / 10) 0 = 0 := by
    unfold pceil
    rw [mul_zero]
  have hm : max (15 : ℚ) 0 = 15 := max_eq_left (by norm_num)
  simp only [resizeBounds, if_neg loadedGrid_ne]
  norm_num [loadedGrid, GridMapFromMsg, fromMsg, clear, msgL, emptyMsg, reqMin, reqMax,
    dblMinPos, hp15, hmes0, hm]

lemma loadedGrid_width : (resizedInfo loadedGrid reqMin reqMax).width = 102 := by
  have hc : ⌈((dblMinPos : ℚ) - -10) / (1 / 10)⌉ = 101 := by
    rw [Int.ceil_eq_iff]
    constructor
    · norm_num [dblMinPos]
    · norm_num [dblMinPos]
  simp only [resizedInfo, loadedGrid_bounds, loadedGrid_res]
  rw [hc]
  decide

lemma loadedGrid_height : (resizedInfo loadedGrid reqMin reqMax).height = 102 := by
  have hc : ⌈((dblMinPos : ℚ) - -10) / (1 / 10)⌉ = 101 := by
    rw [Int.ceil_eq_iff]
    constructor
    · norm_num [dblMinPos]
    · norm_num [dblMinPos]
  simp only [resizedInfo, loadedGrid_bounds, loadedGrid_res]
  rw [hc]
  decide

lemma loadedGrid_new_originX : (resizedInfo loadedGrid reqMin reqMax).originX = -10 := by
  simp only [resizedInfo, loadedGrid_bounds]

lemma loadedGrid_new_originY : (resizedInfo loadedGrid reqMin reqMax).originY = -10 := by
  simp only [resizedInfo, loadedGrid_bounds]

lemma loadedGrid_new_res : (resizedInfo loadedGrid reqMin reqMax).resolution = 1 / 10 := by
  simp only [resizedInfo]
  exact loadedGrid_res

/-- The old origin (and any point of the old data block) does not convert in the new
geometry: its cell `(150, 150)` lies outside the `102 × 102` grid. -/
lemma loadedGrid_new_lookup_none (dat : List ℤ) :
    getGridMapIndexOfWorld ⟨resizedInfo loadedGrid reqMin reqMax, dat⟩ 5 5 = none := by
  have hco : getGridMapCoords ⟨resizedInfo loadedGrid reqMin reqMax, dat⟩ 5 5 = none := by
    simp only [getGridMapCoords]
    rw [loadedGrid_new_originX, loadedGrid_new_originY, loadedGrid_new_res,
      show ((5 : ℚ) - -10) / (1 / 10) = ((150 : ℤ) : ℚ) by norm_num, cround_intCast,
      if_pos (Or.inr (Or.inl (by rw [loadedGrid_width]; norm_num)))]
  unfold getGridMapIndexOfWorld
  rw [hco]

lemma loadedGrid_old_lookup : getGridMapIndexOfWorld loadedGrid.grid 5 5 = some 0 := by
  have hco : getGridMapCoords loadedGrid.grid 5 5 = some (0, 0) := by
    simp only [getGridMapCoords]
    rw [show loadedGrid.grid.info.originX = (5 : ℚ) from rfl,
      show loadedGrid.grid.info.originY = (5 : ℚ) from rfl, loadedGrid_res,
      show ((5 : ℚ) - 5) / (1 / 10) = ((0 : ℤ) : ℚ) by norm_num, cround_intCast,
      if_neg (by decide)]
  unfold getGridMapIndexOfWorld
  rw [hco]
  decide

/-- Counterexample to C1 as universally stated: the value `7` stored at world
`(5, 5)` of the message-loaded grid (a reachable state whose `max` holds the tiny
positive sentinel) is no longer readable after the reallocating
`resize((-10,-10), (-5,-5))` — the conversion of its world coordinate fails in the
new geometry, so the stored value has been misplaced. -/
theorem C1_resize_preserves_data_cex :
    getGridMapIndexOfWorld loadedGrid.grid (getGridMapWorldCoords loadedGrid.grid 0 0).1
      (getGridMapWorldCoords loadedGrid.grid 0 0).2 = some 0 ∧
    loadedGrid.grid.data.getD 0 0 = 7 ∧
    ¬ covered loadedGrid reqMin reqMax ∧
    loadedGrid.grid.data ≠ [] ∧
    getGridMapIndexOfWorld (resize loadedGrid reqMin reqMax).grid
      (getGridMapWorldCoords loadedGrid.grid 0 0).1
      (getGridMapWorldCoords loadedGrid.grid 0 0).2 = none := by
  have hwc1 : (getGridMapWorldCoords loadedGrid.grid 0 0).1 = 5 := by
    simp only [getGridMapWorldCoords]
    rw [loadedGrid_res, show loadedGrid.grid.info.originX = (5 : ℚ) from rfl]
    norm_num
  have hwc2 : (getGridMapWorldCoords loadedGrid.grid 0 0).2 = 5 := by
    simp only [getGridMapWorldCoords]
    rw [loadedGrid_res, show loadedGrid.grid.info.originY = (5 : ℚ) from rfl]
    norm_num
  refine ⟨?_, rfl, loadedGrid_not_covered, loadedGrid_ne, ?_⟩
  · rw [hwc1, hwc2]
    exact loadedGrid_old_lookup
  · rw [hwc1, hwc2, resize_of_not_covered _ _ _ loadedGrid_not_covered]
    exact loadedGrid_new_lookup_none _

/-- C10: the claim that the ignored old-origin conversion in the copy step never
fails is false — on the reachable message-loaded grid, the reallocating
`resize((-10,-10), (-5,-5))` builds a geometry that excludes the old origin, the
conversion fails, the ignored `false` leaves the destination index at `0`, and the
old data block is copied to index 0 — world `(-10, -10)` instead of `(5, 5)`. -/
theorem C10_ignored_failure :
    getGridMapIndexOfWorld (resize loadedGrid reqMin reqMax).grid
      loadedGrid.grid.info.originX loadedGrid.grid.info.originY = none ∧
    (resize loadedGrid reqMin reqMax).grid.data.getD 0 0 = loadedGrid.grid.data.getD 0 0 ∧
    loadedGrid.grid.data.getD 0 0 = 7 ∧
    getGridMapWorldCoords (resize loadedGrid reqMin reqMax).grid 0 0 = (-10, -10) := by
  refine ⟨?_, ?_, rfl, ?_⟩
  · rw [show loadedGrid.grid.info.originX = (5 : ℚ) from rfl,
      show loadedGrid.grid.info.originY = (5 : ℚ) from rfl,
      resize_of_not_covered _ _ _ loadedGrid_not_covered]
    exact loadedGrid_new_lookup_none _
  · rw [resize_of_not_covered _ _ _ loadedGrid_not_covered]
    dsimp only
    have hstart : ((getGridMapIndexOfWorld
        ⟨resizedInfo loadedGrid reqMin reqMax,
          List.replicate ((resizedInfo loadedGrid reqMin reqMax).width *
            (resizedInfo loadedGrid reqMin reqMax).height % 4294967296) int8Min⟩
        loadedGrid.grid.info.originX loadedGrid.grid.info.originY).getD 0).toNat = 0 := by
      rw [show loadedGrid.grid.info.originX = (5 : ℚ) from rfl,
        show loadedGrid.grid.info.originY = (5 : ℚ) from rfl, loadedGrid_new_lookup_none]
      rfl
    rw [hstart]
    have h := copyRows_getD
      (List.replicate ((resizedInfo loadedGrid reqMin reqMax).width *
        (resizedInfo loadedGrid reqMin reqMax).height % 4294967296) int8Min)
      loadedGrid.grid.data loadedGrid.grid.info.width
      (resizedInfo loadedGrid reqMin reqMax).width 0 loadedGrid.grid.info.height 0 0
      (by rw [show loadedGrid.grid.info.height = 10 from rfl]; norm_num)
      (by rw [show loadedGrid.grid.info.width = 10 from rfl]; norm_num)
      (by rw [show loadedGrid.grid.info.width = 10 from rfl, loadedGrid_width]; norm_num)
      (by rw [List.length_replicate, loadedGrid_width, loadedGrid_height]; norm_num)
    simpa using h
  · rw [resize_of_not_covered _ _ _ loadedGrid_not_covered]
    dsimp only
    simp only [getGridMapWorldCoords]
    rw [loadedGrid_new_res, loadedGrid_new_originX, loadedGrid_new_originY]
    norm_num

/-- C5: the create path stores `pceil(min_expansion_size, resolution)` as claimed,
but the message-loading constructor rounds with the resolution of the freshly
default-constructed message (`0`) instead of the loaded message's resolution — the
field is read at line 32, before `fromMsg(map)` runs at line 36.  At message
resolution `0.05` and argument `0.1` the stored value is the model's `pceil(0.1, 0)`
(`NaN` in C++ `double` arithmetic), not `pceil(0.1, 0.05) = 0.1`. -/
theorem C5_expansion_rounding :
    (∀ r m : ℚ, (GridMapCreate r m).min_expansion_size = pceil m r) ∧
    (GridMapFromMsg msgC5 (1 / 10)).grid.info.resolution = 1 / 20 ∧
    (GridMapFromMsg msgC5 (1 / 10)).min_expansion_size = pceil (1 / 10) 0 ∧
    pceil ((1 : ℚ) / 10) 0 = 0 ∧
    pceil ((1 : ℚ) / 10) (1 / 20) = 1 / 10 := by
  refine ⟨fun r m => rfl, rfl, rfl, ?_, ?_⟩
  · unfold pceil
    rw [mul_zero]
  · unfold pceil
    have h2 : ((1 : ℚ) / 10) / (1 / 20) = 2 := by norm_num
    rw [h2, show ((2 : ℚ)) = ((2 : ℤ) : ℚ) by norm_num, Int.ceil_intCast]
    norm_num

end VigirTerrain
